import Mathlib

/-!
Verification of the cliplingua credit/quota ledger against its specification.

The development shallowly embeds the subsystems the claims are about:

* the SQL credit primitives `reserve_credits` / `refund_credits` and the
  signup trigger `handle_new_user` (the Day-2 migration file);
* the clip-submission route (`api/clip/submit`, first version: reserve,
  then worker create, then persist);
* the session-authenticated bulk-jobs route item runner
  (`api/v1/bulk/jobs`, `runOne`: worker create, then reserve, then persist);
* the API-key bulk route (`api/v1/bulk/submit`: key verify, rate limit,
  then fan-out);
* the billing verification route (`api/billing/verify`);
* the dub route (`api/clip/dub`, first version).

Balances are SQL `integer` columns, embedded as `Int`.  Fallible remote
calls are embedded as explicit outcome parameters; a thrown exception
(timeout / abort) is a distinct outcome from an error response, because
the routes treat the two differently (error results flow through `if`
branches, exceptions jump to the route's `catch` block).  Each route
returns its response, the post-state of the store, and a trace of the
store/worker calls it performed, so that temporal claims ("no reserve
call happens before ...") are statable.
-/

/-- Error taxonomy of the SQL credit functions: `raise exception` messages
`not authenticated`, `insufficient credits`, `profile missing`. -/
inductive CreditError where
  | notAuthenticated
  | insufficientCredits
  | profileMissing
  deriving DecidableEq, Repr

/-- `public.reserve_credits(amount)` from the Day-2 migration.  `uid` is
`auth.uid()` (none when not authenticated), `profile` the caller's
`profiles.credits` row (none when the row is missing).  The SQL body:
raise when `uid is null`; otherwise a single atomic
`update .. set credits = credits - amount where id = uid and credits >= amount
returning credits`; a null `remaining` (no row matched: row missing or
`credits < amount`) raises `insufficient credits`.  Returns the RPC result
paired with the post-state of the row. -/
def reserve_credits (uid : Option Nat) (profile : Option Int) (amount : Int) :
    Except CreditError Int × Option Int :=
  match uid with
  | none => (.error .notAuthenticated, profile)
  | some _ =>
      match profile with
      | none => (.error .insufficientCredits, profile)
      | some credits =>
          if amount ≤ credits then (.ok (credits - amount), some (credits - amount))
          else (.error .insufficientCredits, profile)

/-- `public.refund_credits(amount)` from the Day-2 migration: raise when
`uid is null`; otherwise a single atomic unconditional
`update .. set credits = credits + amount where id = uid returning credits`;
a null `remaining` (no profiles row) raises `profile missing`.  The update
never inserts, so a missing row stays missing. -/
def refund_credits (uid : Option Nat) (profile : Option Int) (amount : Int) :
    Except CreditError Int × Option Int :=
  match uid with
  | none => (.error .notAuthenticated, profile)
  | some _ =>
      match profile with
      | none => (.error .profileMissing, profile)
      | some credits => (.ok (credits + amount), some (credits + amount))

/-- A `public.profiles` row (the claim-relevant columns).  The table
declares `credits integer not null default 10`. -/
structure ProfileRow where
  email : Option String
  credits : Int
  deriving DecidableEq, Repr

/-- `public.handle_new_user()`: the `after insert on auth.users` trigger
inserts `(new.id, new.email, 10)` into `profiles`, `on conflict (id) do
nothing`.  Embedded as a map update on `profiles` keyed by user id. -/
def handle_new_user (profiles : Nat → Option ProfileRow) (newId : Nat)
    (newEmail : Option String) : Nat → Option ProfileRow :=
  fun i =>
    if i = newId then
      match profiles newId with
      | some row => some row
      | none => some { email := newEmail, credits := 10 }
    else profiles i

/-- One step of a sequence of `reserve_credits` calls against the same
authenticated profile: thread the balance, and accumulate the total amount
of the calls that succeeded. -/
def stepReserve (uid : Nat) (acc : Int × Int) (a : Int) : Int × Int :=
  match (reserve_credits (some uid) (some acc.1) a).1 with
  | .ok b2 => (b2, acc.2 + a)
  | .error _ => acc

/-- Run a sequence of `reserve_credits` calls against a profile with
balance `b`; returns the final balance and the total amount of the
succeeding calls.  The store's atomicity means any concurrent execution
of the calls is equivalent to some such sequence. -/
def runReserves (uid : Nat) (b : Int) (amounts : List Int) : Int × Int :=
  amounts.foldl (stepReserve uid) (b, 0)

lemma stepReserve_sum (uid : Nat) (acc : Int × Int) (a : Int) :
    (stepReserve uid acc a).1 + (stepReserve uid acc a).2 = acc.1 + acc.2 := by
  simp only [stepReserve, reserve_credits]
  split
  · next b2 heq =>
      split at heq
      · simp only [Except.ok.injEq] at heq
        omega
      · exact absurd heq (by simp)
  · rfl

lemma stepReserve_nonneg (uid : Nat) (acc : Int × Int) (a : Int)
    (h : 0 ≤ acc.1) : 0 ≤ (stepReserve uid acc a).1 := by
  simp only [stepReserve, reserve_credits]
  split
  · next b2 heq =>
      split at heq
      · next hle =>
          simp only [Except.ok.injEq] at heq
          omega
      · exact absurd heq (by simp)
  · exact h

lemma runReserves_foldl_invariant (uid : Nat) (amounts : List Int) :
    ∀ acc : Int × Int,
      (amounts.foldl (stepReserve uid) acc).1 + (amounts.foldl (stepReserve uid) acc).2
          = acc.1 + acc.2
      ∧ (0 ≤ acc.1 → 0 ≤ (amounts.foldl (stepReserve uid) acc).1) := by
  induction amounts with
  | nil => intro acc; exact ⟨rfl, fun h => h⟩
  | cons a rest ih =>
      intro acc
      have h1 := stepReserve_sum uid acc a
      have h2 := stepReserve_nonneg uid acc a
      have h3 := ih (stepReserve uid acc a)
      refine ⟨by rw [List.foldl_cons, h3.1, h1], fun h => ?_⟩
      exact h3.2 (h2 h)

/-- C2: `reserve_credits` decrements exactly when the resulting balance is
non-negative, fails closed leaving the row unchanged otherwise, and over
any sequence of calls the total reserved never exceeds the starting
balance, which never goes negative. -/
theorem C2_reserve_fails_closed (uid : Nat) (b : Int) (hb : 0 ≤ b) :
    (∀ a : Int, 0 ≤ b - a →
        reserve_credits (some uid) (some b) a = (.ok (b - a), some (b - a)))
    ∧ (∀ a : Int, b - a < 0 →
        reserve_credits (some uid) (some b) a
          = (.error .insufficientCredits, some b))
    ∧ (∀ amounts : List Int,
        (runReserves uid b amounts).1 = b - (runReserves uid b amounts).2
        ∧ (runReserves uid b amounts).2 ≤ b
        ∧ 0 ≤ (runReserves uid b amounts).1) := by
  refine ⟨fun a ha => ?_, fun a ha => ?_, fun amounts => ?_⟩
  · simp only [reserve_credits, if_pos (by omega : a ≤ b)]
  · simp only [reserve_credits, if_neg (by omega : ¬ a ≤ b)]
  · have h := runReserves_foldl_invariant uid amounts (b, 0)
    have hsum := h.1
    have hpos := h.2 hb
    unfold runReserves
    refine ⟨by omega, by omega, hpos⟩

/-- Witness for C2 at concrete inputs: balance 5, amounts [2, 4, 3]. -/
theorem C2_reserve_fails_closed_witness :
    (∀ a : Int, 0 ≤ (5 : Int) - a →
        reserve_credits (some 0) (some 5) a = (.ok (5 - a), some (5 - a)))
    ∧ (∀ a : Int, (5 : Int) - a < 0 →
        reserve_credits (some 0) (some 5) a
          = (.error .insufficientCredits, some 5))
    ∧ (∀ amounts : List Int,
        (runReserves 0 5 amounts).1 = 5 - (runReserves 0 5 amounts).2
        ∧ (runReserves 0 5 amounts).2 ≤ 5
        ∧ 0 ≤ (runReserves 0 5 amounts).1) :=
  C2_reserve_fails_closed 0 5 (by decide)

/-- C4: a successful `reserve_credits(amount)` followed immediately by
`refund_credits(amount)` restores the balance exactly. -/
theorem C4_reserve_refund_conservation (uid : Nat) (b a : Int) (h : a ≤ b) :
    (reserve_credits (some uid) (some b) a).1 = .ok (b - a)
    ∧ (refund_credits (some uid) (reserve_credits (some uid) (some b) a).2 a).2
        = some b := by
  constructor
  · simp only [reserve_credits, if_pos h]
  · simp only [reserve_credits, refund_credits, if_pos h, Option.some.injEq]
    omega

/-- Witness for C4: balance 7, amount 3. -/
theorem C4_reserve_refund_conservation_witness :
    (reserve_credits (some 0) (some 7) 3).1 = .ok (7 - 3)
    ∧ (refund_credits (some 0) (reserve_credits (some 0) (some 7) 3).2 3).2
        = some 7 :=
  C4_reserve_refund_conservation 0 7 3 (by decide)

/-- C8: for an authenticated identity, `refund_credits` unconditionally
increments an existing balance row by `amount` and returns the new
balance; with no balance row it signals `profile missing` and leaves the
store without a row (the UPDATE never inserts). -/
theorem C8_refund_contract (uid : Nat) (amount : Int) :
    (∀ b : Int,
        refund_credits (some uid) (some b) amount = (.ok (b + amount), some (b + amount)))
    ∧ refund_credits (some uid) none amount = (.error .profileMissing, none) := by
  exact ⟨fun b => rfl, rfl⟩

/-- C9: the signup trigger creates the profile row with `credits = 10`,
so a newly created account's first observable balance is 10. -/
theorem C9_new_account_credits (profiles : Nat → Option ProfileRow)
    (newId : Nat) (newEmail : Option String) (h : profiles newId = none) :
    handle_new_user profiles newId newEmail newId
      = some { email := newEmail, credits := 10 } := by
  simp [handle_new_user, h]

/-- Witness for C9: an empty profiles table, user id 0. -/
theorem C9_new_account_credits_witness :
    handle_new_user (fun _ => none) 0 none 0
      = some { email := none, credits := 10 } :=
  C9_new_account_credits (fun _ => none) 0 none rfl

/-- Outcome of a call to the external worker as the routes observe it:
either an HTTP response (its `r.ok` flag and the `jobId` parsed from the
body, empty when absent), or an abort thrown by the timeout controller,
which jumps to the enclosing `catch`. -/
inductive WorkerOutcome where
  | resp (httpOk : Bool) (jobId : String)
  | timeout
  deriving DecidableEq, Repr

/-- Trace events: the store and worker calls a route performs, in order.
A `refundCall` is the attempt (the RPC invocation), whether or not the
RPC itself then fails. -/
inductive Ev where
  | reserveCall (amount : Int)
  | refundCall (amount : Int)
  | workerCall
  | persistCall
  deriving DecidableEq, Repr

/-- A `public.user_jobs` row (claim-relevant columns). -/
structure JobRow where
  workerJobId : String
  status : String
  creditsSpent : Int
  deriving DecidableEq, Repr

/-- Store state seen by the session-authenticated routes: the caller's
`profiles.credits` row and the `user_jobs` table. -/
structure SagaState where
  credits : Option Int
  jobs : List JobRow
  deriving DecidableEq, Repr

/-- Store state seen by the org-scoped routes: the organization's credit
balance row and the `user_jobs` table. -/
structure OrgState where
  orgCredits : Int
  jobs : List JobRow
  deriving DecidableEq, Repr

/-- Per-item result shape `{ url, ok, jobId | error }` of the bulk
routes. -/
structure ItemResult where
  url : String
  ok : Bool
  error : Option String
  workerJobId : Option String
  deriving DecidableEq, Repr

namespace ClipSubmit

/-- Request environment of `api/clip/submit` (first version): bearer
token presence, the request's `url` field, the session's user (none when
`getUser` fails), the worker-create outcome, the `user_jobs` insert
outcome (none = ok, some msg = error), and whether the refund RPC throws
(network failure swallowed by `safeRefund`). -/
structure Env where
  hasToken : Bool
  url : String
  user : Option Nat
  worker : WorkerOutcome
  persist : Option String
  refundThrows : Bool
  deriving DecidableEq, Repr

/- Body string fields are modelled post-trim: the route reads
`String(body?.url || "").trim()`, so an absent or blank field is the
empty string here. -/

/-- The route's fixed per-job cost. -/
def COST : Int := 1

inductive Resp where
  | unauthorized
  | badRequest (msg : String)
  | invalidSession
  | paymentRequired (msg : String)
  | workerFailed
  | serverError (msg : String)
  | success (jobId : String)
  deriving DecidableEq, Repr

/-- `safeRefund`: calls the `refund_credits` RPC inside try/catch and
ignores any failure.  Returns the post-state of the profile row: unchanged
when the RPC throws in transit, else whatever the RPC left behind (the RPC
itself changes nothing when it raises). -/
def safeRefund (refundThrows : Bool) (uid : Option Nat) (profile : Option Int)
    (amount : Int) : Option Int :=
  if refundThrows then profile
  else (refund_credits uid profile amount).2

/-- `POST` of `api/clip/submit` (first version, lines 48-136): validate
token, url, session; `reserve_credits(COST)` (402 on error); warmup ping
(failures ignored, no store effect — not modelled); worker create with a
90s timeout; on a non-ok response or missing `jobId`, `safeRefund` and 502;
otherwise insert the `user_jobs` row with `credits_spent = COST` (on
insert error, `safeRefund` and 500).  A timeout aborts the worker fetch
and the thrown `AbortError` reaches the route's `catch`, which returns
500 "Worker timeout" without any refund. -/
def POST (env : Env) (st : SagaState) : Resp × SagaState × List Ev :=
  if ¬ env.hasToken then (.unauthorized, st, [])
  else if env.url = "" then (.badRequest "Missing url", st, [])
  else
    match env.user with
    | none => (.invalidSession, st, [])
    | some uid =>
        match reserve_credits (some uid) st.credits COST with
        | (.error _, prof) =>
            (.paymentRequired "Insufficient credits", { st with credits := prof },
             [.reserveCall COST])
        | (.ok _, prof1) =>
            let st1 : SagaState := { st with credits := prof1 }
            match env.worker with
            | .timeout =>
                (.serverError "Worker timeout", st1, [.reserveCall COST, .workerCall])
            | .resp httpOk jobId =>
                if ¬ httpOk ∨ jobId = "" then
                  let prof2 := safeRefund env.refundThrows (some uid) st1.credits COST
                  (.workerFailed, { st1 with credits := prof2 },
                   [.reserveCall COST, .workerCall, .refundCall COST])
                else
                  match env.persist with
                  | some msg =>
                      let prof2 := safeRefund env.refundThrows (some uid) st1.credits COST
                      (.serverError msg, { st1 with credits := prof2 },
                       [.reserveCall COST, .workerCall, .persistCall, .refundCall COST])
                  | none =>
                      let row : JobRow :=
                        { workerJobId := jobId, status := "submitted", creditsSpent := COST }
                      (.success jobId, { st1 with jobs := st1.jobs ++ [row] },
                       [.reserveCall COST, .workerCall, .persistCall])

end ClipSubmit

namespace BulkJobs

/-- Modelled from the spec: the SQL function `reserve_job_credits` is code
of this repository that is not under `src/` (only its callers appear
there).  Per §4.1 the job-tied, org-scoped reserve has the same contract
as `reserve_credits`: decrement the organization balance by `amount` only
if the resulting balance is non-negative, in one atomic statement, else
signal InsufficientFunds. -/
def reserve_job_credits (orgCredits : Int) (amount : Int) :
    Except CreditError Int :=
  if amount ≤ orgCredits then .ok (orgCredits - amount)
  else .error .insufficientCredits

/-- Modelled from the spec: the SQL function `refund_job_credits` is not
under `src/`.  Per §4.1 the org-scoped refund unconditionally increments
the organization balance by `amount`. -/
def refund_job_credits (orgCredits : Int) (amount : Int) : Int :=
  orgCredits + amount

/-- Per-item environment of `runOne` in `api/v1/bulk/jobs`: the
worker-create outcome, the `user_jobs` insert outcome, and whether the
refund RPC throws (swallowed by `safeRefundJob`). -/
structure ItemEnv where
  worker : WorkerOutcome
  persist : Option String
  refundThrows : Bool
  deriving DecidableEq, Repr

/-- `safeRefundJob`: `refund_job_credits` inside try/catch, failures
ignored. -/
def safeRefundJob (refundThrows : Bool) (orgCredits : Int) (amount : Int) : Int :=
  if refundThrows then orgCredits else refund_job_credits orgCredits amount

/-- `runOne` of `api/v1/bulk/jobs` (lines 94-158): worker create first
(90s timeout); on non-ok response or missing `jobId`, fail the item with
no ledger effect; then `reserve_job_credits(COST)` (402-style item error
on failure); then insert the `user_jobs` row with `credits_spent = COST`
(on insert error, `safeRefundJob` and fail the item).  A thrown abort is
caught by `runOne`'s own catch, which refunds only if `reserved` was
already set — at a worker-create timeout it is not, so the item just
fails with "Worker timeout". -/
def runOne (ienv : ItemEnv) (url : String) (st : OrgState) :
    ItemResult × OrgState × List Ev :=
  match ienv.worker with
  | .timeout =>
      ({ url := url, ok := false, error := some "Worker timeout", workerJobId := none },
       st, [.workerCall])
  | .resp httpOk jobId =>
      if ¬ httpOk ∨ jobId = "" then
        ({ url := url, ok := false, error := some "Worker create failed",
           workerJobId := none }, st, [.workerCall])
      else
        match reserve_job_credits st.orgCredits 1 with
        | .error _ =>
            ({ url := url, ok := false, error := some "Insufficient credits",
               workerJobId := some jobId }, st, [.workerCall, .reserveCall 1])
        | .ok b1 =>
            let st1 : OrgState := { st with orgCredits := b1 }
            match ienv.persist with
            | some msg =>
                let st2 : OrgState :=
                  { st1 with orgCredits := safeRefundJob ienv.refundThrows st1.orgCredits 1 }
                ({ url := url, ok := false, error := some msg, workerJobId := some jobId },
                 st2, [.workerCall, .reserveCall 1, .persistCall, .refundCall 1])
            | none =>
                let row : JobRow :=
                  { workerJobId := jobId, status := "submitted", creditsSpent := 1 }
                ({ url := url, ok := true, error := none, workerJobId := some jobId },
                 { st1 with jobs := st1.jobs ++ [row] },
                 [.workerCall, .reserveCall 1, .persistCall])

end BulkJobs

/-- The saga post-condition of §8: either a job record charged exactly
`cost` exists and the reservation was retained (balance is the starting
balance minus `cost`), or no record exists and the balance is back at (or
never left) the starting balance. -/
def sagaPost (cost startBal : Int) (credits : Option Int) (jobs : List JobRow) : Prop :=
  ((∃ j ∈ jobs, j.creditsSpent = cost) ∧ credits = some (startBal - cost))
  ∨ (jobs = [] ∧ credits = some startBal)

instance (cost startBal : Int) (credits : Option Int) (jobs : List JobRow) :
    Decidable (sagaPost cost startBal credits jobs) := by
  unfold sagaPost; infer_instance

lemma clipSubmit_sagaPost (env : ClipSubmit.Env) (b : Int)
    (hW : env.worker ≠ .timeout) (hR : env.refundThrows = false) :
    sagaPost ClipSubmit.COST b
      (ClipSubmit.POST env { credits := some b, jobs := [] }).2.1.credits
      (ClipSubmit.POST env { credits := some b, jobs := [] }).2.1.jobs := by
  obtain ⟨tok, u, user, w, p, rT⟩ := env
  simp only at hW hR
  subst hR
  cases tok with
  | false => simp [ClipSubmit.POST, sagaPost]
  | true =>
      by_cases hu : u = ""
      · simp [ClipSubmit.POST, hu, sagaPost]
      · cases user with
        | none => simp [ClipSubmit.POST, hu, sagaPost]
        | some uid =>
            by_cases hb : (1 : Int) ≤ b
            · cases w with
              | timeout => exact absurd rfl hW
              | resp httpOk jobId =>
                  by_cases hfail : ¬ httpOk = true ∨ jobId = ""
                  · rcases hfail with h | h
                    · simp only [Bool.not_eq_true] at h
                      simp [ClipSubmit.POST, ClipSubmit.COST, hu, h, reserve_credits,
                        if_pos hb, ClipSubmit.safeRefund, refund_credits, sagaPost]
                    · simp [ClipSubmit.POST, ClipSubmit.COST, hu, h, reserve_credits,
                        if_pos hb, ClipSubmit.safeRefund, refund_credits, sagaPost]
                  · push_neg at hfail
                    cases p with
                    | some msg =>
                        simp [ClipSubmit.POST, ClipSubmit.COST, hu, hfail.1, hfail.2,
                          reserve_credits, if_pos hb, ClipSubmit.safeRefund,
                          refund_credits, sagaPost]
                    | none =>
                        simp [ClipSubmit.POST, ClipSubmit.COST, hu, hfail.1, hfail.2,
                          reserve_credits, if_pos hb, sagaPost]
            · simp [ClipSubmit.POST, ClipSubmit.COST, hu, reserve_credits,
                if_neg hb, sagaPost]

lemma bulkJobs_sagaPost (ienv : BulkJobs.ItemEnv) (url : String) (ob : Int)
    (hR : ienv.refundThrows = false) :
    sagaPost 1 ob
      (some (BulkJobs.runOne ienv url { orgCredits := ob, jobs := [] }).2.1.orgCredits)
      (BulkJobs.runOne ienv url { orgCredits := ob, jobs := [] }).2.1.jobs := by
  obtain ⟨w, p, rT⟩ := ienv
  simp only at hR
  subst hR
  cases w with
  | timeout => simp [BulkJobs.runOne, sagaPost]
  | resp httpOk jobId =>
      by_cases hfail : ¬ httpOk = true ∨ jobId = ""
      · rcases hfail with h | h
        · simp only [Bool.not_eq_true] at h
          simp [BulkJobs.runOne, h, sagaPost]
        · simp [BulkJobs.runOne, h, sagaPost]
      · push_neg at hfail
        by_cases hb : (1 : Int) ≤ ob
        · cases p with
          | some msg =>
              simp [BulkJobs.runOne, hfail.1, hfail.2, BulkJobs.reserve_job_credits,
                if_pos hb, BulkJobs.safeRefundJob, BulkJobs.refund_job_credits, sagaPost]
          | none =>
              simp [BulkJobs.runOne, hfail.1, hfail.2, BulkJobs.reserve_job_credits,
                if_pos hb, sagaPost]
        · simp [BulkJobs.runOne, hfail.1, hfail.2, BulkJobs.reserve_job_credits,
            if_neg hb, sagaPost]

/-- C1: saga consistency of job submission.  For both submission
orchestrations — `api/clip/submit` (reserve, worker create, persist) and
the per-item runner of `api/v1/bulk/jobs` (worker create, reserve,
persist) — a failure of any of the three transitions (the worker create
returns a non-success response, the reserve signals insufficient funds,
or the job-record insert errors) leaves the store in a state where either
a job record charged exactly the per-job cost exists and the reservation
was retained, or no record exists and any reservation taken was refunded.
The environment quantifies over all such failure combinations; the
timeout-abort outcome, which is an exception rather than a transition
failure result, is the subject of C3. -/
theorem C1_saga_consistency (env : ClipSubmit.Env) (ienv : BulkJobs.ItemEnv)
    (b ob : Int) (url : String)
    (hW : env.worker ≠ .timeout) (hR : env.refundThrows = false)
    (hR2 : ienv.refundThrows = false) :
    sagaPost ClipSubmit.COST b
      (ClipSubmit.POST env { credits := some b, jobs := [] }).2.1.credits
      (ClipSubmit.POST env { credits := some b, jobs := [] }).2.1.jobs
    ∧ sagaPost 1 ob
        (some (BulkJobs.runOne ienv url { orgCredits := ob, jobs := [] }).2.1.orgCredits)
        (BulkJobs.runOne ienv url { orgCredits := ob, jobs := [] }).2.1.jobs :=
  ⟨clipSubmit_sagaPost env b hW hR, bulkJobs_sagaPost ienv url ob hR2⟩

/-- Witness for C1: a worker-create failure injected into the clip-submit
saga at balance 3, and a persist failure injected into the bulk-jobs item
saga at org balance 2. -/
theorem C1_saga_consistency_witness :
    sagaPost ClipSubmit.COST 3
      (ClipSubmit.POST
        { hasToken := true, url := "u", user := some 0,
          worker := .resp false "", persist := none, refundThrows := false }
        { credits := some 3, jobs := [] }).2.1.credits
      (ClipSubmit.POST
        { hasToken := true, url := "u", user := some 0,
          worker := .resp false "", persist := none, refundThrows := false }
        { credits := some 3, jobs := [] }).2.1.jobs
    ∧ sagaPost 1 2
        (some (BulkJobs.runOne
          { worker := .resp true "w1", persist := some "db write failed",
            refundThrows := false }
          "x" { orgCredits := 2, jobs := [] }).2.1.orgCredits)
        (BulkJobs.runOne
          { worker := .resp true "w1", persist := some "db write failed",
            refundThrows := false }
          "x" { orgCredits := 2, jobs := [] }).2.1.jobs :=
  C1_saga_consistency
    { hasToken := true, url := "u", user := some 0,
      worker := .resp false "", persist := none, refundThrows := false }
    { worker := .resp true "w1", persist := some "db write failed",
      refundThrows := false }
    3 2 "x" (by decide) rfl rfl

/-- C6: in `api/clip/submit`, when the `user_jobs` insert fails after a
successful reservation, `safeRefund` is attempted exactly once,
synchronously within the same request (one `refundCall` in the trace),
and the caller receives the original persistence error whether or not the
refund RPC itself fails (`env.refundThrows` is unconstrained). -/
theorem C6_refund_best_effort (env : ClipSubmit.Env) (b : Int) (uid : Nat)
    (jid msg : String)
    (hT : env.hasToken = true) (hu : env.url ≠ "")
    (hUser : env.user = some uid)
    (hw : env.worker = .resp true jid) (hj : jid ≠ "")
    (hb : (1 : Int) ≤ b) (hp : env.persist = some msg) :
    (ClipSubmit.POST env { credits := some b, jobs := [] }).1 = .serverError msg
    ∧ ((ClipSubmit.POST env { credits := some b, jobs := [] }).2.2.count
          (Ev.refundCall ClipSubmit.COST)) = 1 := by
  obtain ⟨tok, u, user, w, p, rT⟩ := env
  simp only at hT hu hUser hw hp
  subst hT hUser hw hp
  constructor
  · simp [ClipSubmit.POST, ClipSubmit.COST, hu, hj, reserve_credits, if_pos hb]
  · simp [ClipSubmit.POST, ClipSubmit.COST, hu, hj, reserve_credits, if_pos hb,
      List.count]

/-- Witness for C6: balance 4, worker job "w1", insert error "db down",
with the refund RPC itself failing. -/
theorem C6_refund_best_effort_witness :
    (ClipSubmit.POST
        { hasToken := true, url := "u", user := some 0,
          worker := .resp true "w1", persist := some "db down",
          refundThrows := true }
        { credits := some 4, jobs := [] }).1 = .serverError "db down"
    ∧ ((ClipSubmit.POST
        { hasToken := true, url := "u", user := some 0,
          worker := .resp true "w1", persist := some "db down",
          refundThrows := true }
        { credits := some 4, jobs := [] }).2.2.count
          (Ev.refundCall ClipSubmit.COST)) = 1 :=
  C6_refund_best_effort
    { hasToken := true, url := "u", user := some 0,
      worker := .resp true "w1", persist := some "db down", refundThrows := true }
    4 0 "w1" "db down" rfl (by decide) rfl rfl (by decide) (by decide) rfl

namespace ClipDub

/-- `allowedLangs()` of `api/clip/dub` (first version): the set
`{hi, en, es}`. -/
def allowedLangs : List String := ["hi", "en", "es"]

/-- Request environment of `api/clip/dub` (first version).  Body string
fields are modelled post-trim.  `ownQuery` is the `user_jobs` ownership
lookup: an error message, or whether a row with this `worker_job_id` was
found.  `worker` is the dub call outcome; its abort (from
`AbortSignal.timeout`) reaches the route's `catch`. -/
structure Env where
  hasToken : Bool
  jobId : String
  lang : String
  user : Option Nat
  ownQuery : Except String Bool
  worker : WorkerOutcome
  refundThrows : Bool
  deriving Repr

inductive Resp where
  | unauthorized
  | badRequest (msg : String)
  | invalidSession
  | serverError (msg : String)
  | notFound
  | paymentRequired (msg : String)
  | workerFailed
  | okResp
  deriving DecidableEq, Repr

/-- `POST` of `api/clip/dub` (first version, lines 42-113): token check;
`jobId` / `lang` present; `lang` allowed; session check; ownership
lookup (500 on query error, 404 when absent); `reserve_credits(COST)`
(402 on error); dub call on the worker with a 90s timeout; on a non-ok
response, `safeRefundCredits` and 502; on success, 200.  A thrown timeout
reaches the route's `catch`, which returns 500 without any refund (the
catch ignores the `reserved` flag).  The exception's own message is not
claim-relevant and is embedded as the catch's fallback "Dub failed". -/
def POST (env : Env) (st : SagaState) : Resp × SagaState × List Ev :=
  if ¬ env.hasToken then (.unauthorized, st, [])
  else if env.jobId = "" then (.badRequest "Missing jobId", st, [])
  else if env.lang = "" then (.badRequest "Missing lang", st, [])
  else if ¬ (env.lang ∈ allowedLangs) then (.badRequest "Unsupported lang", st, [])
  else
    match env.user with
    | none => (.invalidSession, st, [])
    | some uid =>
        match env.ownQuery with
        | .error msg => (.serverError msg, st, [])
        | .ok false => (.notFound, st, [])
        | .ok true =>
            match reserve_credits (some uid) st.credits 1 with
            | (.error _, prof) =>
                (.paymentRequired "Insufficient credits",
                 { st with credits := prof }, [.reserveCall 1])
            | (.ok _, prof1) =>
                let st1 : SagaState := { st with credits := prof1 }
                match env.worker with
                | .timeout =>
                    (.serverError "Dub failed", st1, [.reserveCall 1, .workerCall])
                | .resp httpOk _ =>
                    if ¬ httpOk then
                      let prof2 :=
                        ClipSubmit.safeRefund env.refundThrows (some uid) st1.credits 1
                      (.workerFailed, { st1 with credits := prof2 },
                       [.reserveCall 1, .workerCall, .refundCall 1])
                    else (.okResp, st1, [.reserveCall 1, .workerCall])

end ClipDub

/-- C3 (bug evidence): a worker call cancelled by its timeout is NOT
treated as a saga failure.  In `api/clip/submit` (first version), with
balance 1, the reservation succeeds and the worker create then aborts on
timeout; the thrown `AbortError` reaches the route's `catch`, which
returns 500 "Worker timeout" with the balance left at 0: no refund call
appears in the trace and the pre-reservation balance is not restored.
The same happens in `api/clip/dub`: after a successful reservation a dub
timeout reaches the catch, which refunds nothing.  This contradicts the
claim (and §5 of the spec), which requires a timeout to trigger the
refund exactly like an explicit worker failure. -/
theorem C3_timeout_reservation_not_refunded :
    (ClipSubmit.POST
        { hasToken := true, url := "u", user := some 0, worker := .timeout,
          persist := none, refundThrows := false }
        { credits := some 1, jobs := [] })
      = (.serverError "Worker timeout", { credits := some 0, jobs := [] },
         [.reserveCall 1, .workerCall])
    ∧ (ClipDub.POST
        { hasToken := true, jobId := "w1", lang := "hi", user := some 0,
          ownQuery := .ok true, worker := .timeout, refundThrows := false }
        { credits := some 1,
          jobs := [{ workerJobId := "w1", status := "submitted", creditsSpent := 1 }] })
      = (.serverError "Dub failed",
         { credits := some 0,
           jobs := [{ workerJobId := "w1", status := "submitted", creditsSpent := 1 }] },
         [.reserveCall 1, .workerCall]) := by
  constructor
  · rfl
  · rfl

/-- C10 counterexample: a session-authenticated dub request with
`lang = "fr"` (not in {hi, en, es}) but an absent `jobId` is answered
with 400 "Missing jobId", not 400 "Unsupported lang" — the field
presence checks run first.  The claim as stated (every request with an
unsupported lang gets the "Unsupported lang" error) is therefore false
at this input. -/
theorem C10_counterexample :
    (ClipDub.POST
        { hasToken := true, jobId := "", lang := "fr", user := some 0,
          ownQuery := .ok true, worker := .resp true "", refundThrows := false }
        { credits := some 5, jobs := [] }).1 = .badRequest "Missing jobId"
    ∧ (ClipDub.POST
        { hasToken := true, jobId := "", lang := "fr", user := some 0,
          ownQuery := .ok true, worker := .resp true "", refundThrows := false }
        { credits := some 5, jobs := [] }).1 ≠ .badRequest "Unsupported lang" := by
  exact ⟨rfl, by decide⟩

/-- C10 (amended): for every dub request carrying a bearer token whose
`jobId` and `lang` are non-empty (post-trim) and whose `lang` is not one
of {hi, en, es}, the endpoint returns the 400 "Unsupported lang" error
with the store untouched and an empty call trace — in particular before
any credit reservation or worker call, so no balance changes.  (The check
even precedes session validation, so no hypothesis on the session is
needed.) -/
theorem C10_unsupported_lang (env : ClipDub.Env) (st : SagaState)
    (hT : env.hasToken = true) (hj : env.jobId ≠ "") (hl : env.lang ≠ "")
    (ha : env.lang ∉ ClipDub.allowedLangs) :
    ClipDub.POST env st = (.badRequest "Unsupported lang", st, []) := by
  obtain ⟨tok, jobId, lang, user, ownQ, w, rT⟩ := env
  simp only at hT hj hl ha
  subst hT
  simp [ClipDub.POST, hj, hl, ha]

/-- Witness for C10 (amended): `jobId = "w1"`, `lang = "fr"`. -/
theorem C10_unsupported_lang_witness :
    ClipDub.POST
        { hasToken := true, jobId := "w1", lang := "fr", user := some 0,
          ownQuery := .ok true, worker := .resp true "", refundThrows := false }
        { credits := some 5, jobs := [] }
      = (.badRequest "Unsupported lang", { credits := some 5, jobs := [] }, []) :=
  C10_unsupported_lang
    { hasToken := true, jobId := "w1", lang := "fr", user := some 0,
      ownQuery := .ok true, worker := .resp true "", refundThrows := false }
    { credits := some 5, jobs := [] }
    rfl (by decide) (by decide) (by decide)

namespace BulkSubmit

/-- Modelled from the spec: the SQL function `reserve_org_credits` is code
of this repository that is not under `src/` (only its caller appears
there).  §4.1: same contract as `reserve_credits`, scoped to the
organization balance. -/
def reserve_org_credits (orgCredits : Int) (amount : Int) :
    Except CreditError Int :=
  if amount ≤ orgCredits then .ok (orgCredits - amount)
  else .error .insufficientCredits

/-- Modelled from the spec: the SQL function `refund_org_credits` is not
under `src/`; it unconditionally increments the organization balance. -/
def refund_org_credits (orgCredits : Int) (amount : Int) : Int :=
  orgCredits + amount

/-- The row returned by the `verify_org_api_key` RPC (claim-relevant
fields); the source reads `org_id`, `prefix`, `api_rpm`,
`api_daily_cap`. -/
structure KeyRow where
  orgId : String
  keyPref : String
  apiRpm : Int
  apiDaily : Int
  deriving DecidableEq, Repr

/-- Per-item outcomes for the fan-out of `api/v1/bulk/submit`. -/
structure ItemEnv where
  worker : WorkerOutcome
  persist : Option String
  deriving DecidableEq, Repr

/-- Request environment of `api/v1/bulk/submit`: the `x-api-key` header
(post-trim; none when absent), the request's urls (post-trim), the
`verify_org_api_key` outcome, the `consume_api_limit` outcome (false =
the RPC returned a rate-limit error), and the per-item worker/persist
outcomes, indexed by item position. -/
structure Env where
  apiKey : Option String
  urls : List String
  verifyKey : Except String KeyRow
  rateLimitOk : Bool
  itemAt : Nat → ItemEnv

inductive Resp where
  | missingKey
  | badRequest (msg : String)
  | keyError (msg : String)
  | rateLimited (msg : String)
  | okResp (results : List ItemResult)
  deriving DecidableEq, Repr

/-- `runOne` of `api/v1/bulk/submit` (lines 76-126): worker create (90s
timeout; a thrown abort is caught by `workerLoop`'s catch, which records
a failed item — the exception's message is embedded as the catch's
fallback "Failed"); then `reserve_org_credits(COST_PER_JOB)`; then the
`user_jobs` insert, refunding via `refund_org_credits` on insert error. -/
def runOne (ienv : ItemEnv) (_orgId : String) (url : String) (st : OrgState) :
    ItemResult × OrgState × List Ev :=
  match ienv.worker with
  | .timeout =>
      ({ url := url, ok := false, error := some "Failed", workerJobId := none },
       st, [.workerCall])
  | .resp httpOk jobId =>
      if ¬ httpOk ∨ jobId = "" then
        ({ url := url, ok := false, error := some "Worker create failed",
           workerJobId := none }, st, [.workerCall])
      else
        match reserve_org_credits st.orgCredits 1 with
        | .error _ =>
            ({ url := url, ok := false, error := some "Insufficient credits",
               workerJobId := some jobId }, st, [.workerCall, .reserveCall 1])
        | .ok b1 =>
            let st1 : OrgState := { st with orgCredits := b1 }
            match ienv.persist with
            | some msg =>
                let st2 : OrgState :=
                  { st1 with orgCredits := refund_org_credits st1.orgCredits 1 }
                ({ url := url, ok := false, error := some msg,
                   workerJobId := some jobId }, st2,
                 [.workerCall, .reserveCall 1, .persistCall, .refundCall 1])
            | none =>
                let row : JobRow :=
                  { workerJobId := jobId, status := "submitted", creditsSpent := 1 }
                ({ url := url, ok := true, error := none, workerJobId := some jobId },
                 { st1 with jobs := st1.jobs ++ [row] },
                 [.workerCall, .reserveCall 1, .persistCall])

/-- The fan-out over the cleaned url list.  The source runs a bounded
pool of 1-6 workers pulling indices from a shared counter; each item's
effects are the same as running the items in the order the counter hands
them out, which this sequential fold embeds. -/
def runAll (itemAt : Nat → ItemEnv) (orgId : String) :
    List String → Nat → OrgState → List ItemResult × OrgState × List Ev
  | [], _, st => ([], st, [])
  | u :: rest, i, st =>
      let one := runOne (itemAt i) orgId u st
      let others := runAll itemAt orgId rest (i + 1) one.2.1
      (one.1 :: others.1, others.2.1, one.2.2 ++ others.2.2)

/-- `POST` of `api/v1/bulk/submit` (lines 32-148): missing `x-api-key`
401; clean the urls; empty 400; more than 50 400; `verify_org_api_key`
(401 on error, 401 when the returned `org_id` or `prefix` is blank);
`consume_api_limit` (429 on error) — and only then the credit-spending
fan-out. -/
def POST (env : Env) (st : OrgState) : Resp × OrgState × List Ev :=
  match env.apiKey with
  | none => (.missingKey, st, [])
  | some _ =>
      let clean := env.urls.filter (fun s => s ≠ "")
      if clean.length = 0 then (.badRequest "Provide urls", st, [])
      else if 50 < clean.length then (.badRequest "Max 50 URLs per request", st, [])
      else
        match env.verifyKey with
        | .error msg => (.keyError msg, st, [])
        | .ok row =>
            if row.orgId = "" ∨ row.keyPref = "" then
              (.keyError "Invalid key verify result", st, [])
            else if ¬ env.rateLimitOk then
              (.rateLimited "Rate limit exceeded", st, [])
            else
              let fanout := runAll env.itemAt row.orgId clean 0 st
              (.okResp fanout.1, fanout.2.1, fanout.2.2)

end BulkSubmit

/-- C5: an API-key bulk request that is rejected by the rate limiter is
rejected before any credit reservation: the response is the 429
rate-limit error, the call trace contains no reserve call (for any item
or amount), and the organization balance is unchanged. -/
theorem C5_rate_limit_before_reserve (env : BulkSubmit.Env) (st : OrgState)
    (k : String) (row : BulkSubmit.KeyRow)
    (hK : env.apiKey = some k)
    (hNE : (env.urls.filter (fun s => s ≠ "")).length ≠ 0)
    (hLen : (env.urls.filter (fun s => s ≠ "")).length ≤ 50)
    (hV : env.verifyKey = .ok row)
    (hO : row.orgId ≠ "") (hP : row.keyPref ≠ "")
    (hRL : env.rateLimitOk = false) :
    (BulkSubmit.POST env st).1 = .rateLimited "Rate limit exceeded"
    ∧ (BulkSubmit.POST env st).2.1 = st
    ∧ ∀ a : Int, Ev.reserveCall a ∉ (BulkSubmit.POST env st).2.2 := by
  obtain ⟨key, urls, vk, rl, items⟩ := env
  simp only at hK hNE hLen hV hRL
  subst hK hV hRL
  have h50 : ¬ (50 < (urls.filter (fun s => s ≠ "")).length) := by omega
  have hOP : ¬ (row.orgId = "" ∨ row.keyPref = "") := by
    rintro (h | h)
    · exact hO h
    · exact hP h
  simp only [BulkSubmit.POST]
  rw [if_neg hNE, if_neg h50, if_neg hOP, if_pos (by simp)]
  exact ⟨rfl, rfl, by simp⟩

/-- Witness for C5: one url, a valid key row, rate limit exceeded. -/
theorem C5_rate_limit_before_reserve_witness :
    (BulkSubmit.POST
        { apiKey := some "k", urls := ["u"],
          verifyKey := .ok { orgId := "o", keyPref := "p", apiRpm := 30, apiDaily := 2000 },
          rateLimitOk := false, itemAt := fun _ => { worker := .timeout, persist := none } }
        { orgCredits := 9, jobs := [] }).1 = .rateLimited "Rate limit exceeded"
    ∧ (BulkSubmit.POST
        { apiKey := some "k", urls := ["u"],
          verifyKey := .ok { orgId := "o", keyPref := "p", apiRpm := 30, apiDaily := 2000 },
          rateLimitOk := false, itemAt := fun _ => { worker := .timeout, persist := none } }
        { orgCredits := 9, jobs := [] }).2.1 = { orgCredits := 9, jobs := [] }
    ∧ ∀ a : Int, Ev.reserveCall a ∉
        (BulkSubmit.POST
          { apiKey := some "k", urls := ["u"],
            verifyKey := .ok { orgId := "o", keyPref := "p", apiRpm := 30, apiDaily := 2000 },
            rateLimitOk := false, itemAt := fun _ => { worker := .timeout, persist := none } }
          { orgCredits := 9, jobs := [] }).2.2 :=
  C5_rate_limit_before_reserve
    { apiKey := some "k", urls := ["u"],
      verifyKey := .ok { orgId := "o", keyPref := "p", apiRpm := 30, apiDaily := 2000 },
      rateLimitOk := false, itemAt := fun _ => { worker := .timeout, persist := none } }
    { orgCredits := 9, jobs := [] } "k"
    { orgId := "o", keyPref := "p", apiRpm := 30, apiDaily := 2000 }
    rfl (by decide) (by decide) rfl (by decide) (by decide) rfl

namespace BillingVerify

/-- A `public.org_orders` row (claim-relevant columns). -/
structure OrderRow where
  providerOrderId : String
  kind : String
  seatsDelta : Int
  status : String
  paymentId : Option String
  deriving DecidableEq, Repr

/-- The owning organization's entitlement columns. -/
structure OrgRow where
  seats : Int
  apiEnabled : Bool
  deriving DecidableEq, Repr

/-- Store state for billing verification: the order and its
organization. -/
structure St where
  order : OrderRow
  org : OrgRow
  deriving DecidableEq, Repr

/-- Modelled from the spec: the SQL function `set_org_seats_delta` is
code of this repository that is not under `src/` (only its caller
appears there).  Per §3 "paid orders apply entitlements" and the claim's
"seat count increase", it adds the order's seat delta to the
organization's purchased seat count. -/
def set_org_seats_delta (seats : Int) (delta : Int) : Int :=
  seats + delta

/-- Request environment of `api/billing/verify`: authentication, the
provider order id presented in the body, whether the HMAC signature
matched, and whether the caller is an org admin. -/
structure Env where
  authed : Bool
  razorpayOrderId : String
  sigValid : Bool
  isAdmin : Bool
  paymentId : String
  deriving DecidableEq, Repr

inductive Resp where
  | unauthorized
  | invalidSignature
  | orderMismatch
  | adminRequired
  | okResp
  deriving DecidableEq, Repr

/-- `POST` of `api/billing/verify` (lines 20-87): auth and body checks;
HMAC verification; load the order; provider order id must match; admin
required; then — only when the order is not already `paid` — mark it
paid and apply the entitlement for its kind (`seats`: add the seat
delta via `set_org_seats_delta`; `api`: set `api_enabled`).  An already
paid order short-circuits to a plain `ok` with no store change. -/
def POST (env : Env) (st : St) : Resp × St :=
  if ¬ env.authed then (.unauthorized, st)
  else if ¬ env.sigValid then (.invalidSignature, st)
  else if st.order.providerOrderId ≠ env.razorpayOrderId then (.orderMismatch, st)
  else if ¬ env.isAdmin then (.adminRequired, st)
  else if st.order.status = "paid" then (.okResp, st)
  else
    let order2 : OrderRow :=
      { st.order with status := "paid", paymentId := some env.paymentId }
    let org2 : OrgRow :=
      if st.order.kind = "seats" then
        { st.org with seats := set_org_seats_delta st.org.seats st.order.seatsDelta }
      else if st.order.kind = "api" then
        { st.org with apiEnabled := true }
      else st.org
    (.okResp, { order := order2, org := org2 })

end BillingVerify

/-- C7: billing entitlement is idempotent.  Verifying a not-yet-paid
order succeeds and applies the entitlement delta once (the seat count
grows by the order's delta exactly when the order kind is `seats`);
verifying the same — now paid — order again is a no-op success: the
state is unchanged, so the delta is never doubled. -/
theorem C7_idempotent_entitlement (env : BillingVerify.Env) (st : BillingVerify.St)
    (hA : env.authed = true) (hS : env.sigValid = true)
    (hM : st.order.providerOrderId = env.razorpayOrderId)
    (hAd : env.isAdmin = true) (hNew : st.order.status ≠ "paid") :
    (BillingVerify.POST env st).1 = .okResp
    ∧ (BillingVerify.POST env st).2.org.seats
        = st.org.seats
          + (if st.order.kind = "seats" then st.order.seatsDelta else 0)
    ∧ (BillingVerify.POST env st).2.org.apiEnabled
        = (if st.order.kind = "api" then true else st.org.apiEnabled)
    ∧ (BillingVerify.POST env (BillingVerify.POST env st).2).1 = .okResp
    ∧ (BillingVerify.POST env (BillingVerify.POST env st).2).2
        = (BillingVerify.POST env st).2 := by
  obtain ⟨au, roid, sv, ad, pid⟩ := env
  simp only at hA hS hM hAd
  subst hA hS hAd
  obtain ⟨⟨poid, kind, delta, status, payid⟩, org1⟩ := st
  simp only at hM hNew
  subst hM
  by_cases hk : kind = "seats"
  · simp [BillingVerify.POST, hNew, hk, BillingVerify.set_org_seats_delta]
  · by_cases ha : kind = "api"
    · simp [BillingVerify.POST, hNew, hk, ha]
    · simp [BillingVerify.POST, hNew, hk, ha]

/-- Witness for C7: a created seats order with delta 5 on an org with 2
seats. -/
theorem C7_idempotent_entitlement_witness :
    (BillingVerify.POST
        { authed := true, razorpayOrderId := "r1", sigValid := true,
          isAdmin := true, paymentId := "p1" }
        { order := { providerOrderId := "r1", kind := "seats", seatsDelta := 5,
                     status := "created", paymentId := none },
          org := { seats := 2, apiEnabled := false } }).1 = .okResp
    ∧ (BillingVerify.POST
        { authed := true, razorpayOrderId := "r1", sigValid := true,
          isAdmin := true, paymentId := "p1" }
        { order := { providerOrderId := "r1", kind := "seats", seatsDelta := 5,
                     status := "created", paymentId := none },
          org := { seats := 2, apiEnabled := false } }).2.org.seats
        = 2 + (if ({ providerOrderId := "r1", kind := "seats", seatsDelta := 5,
                     status := "created", paymentId := none } : BillingVerify.OrderRow).kind
                  = "seats"
               then 5 else 0)
    ∧ (BillingVerify.POST
        { authed := true, razorpayOrderId := "r1", sigValid := true,
          isAdmin := true, paymentId := "p1" }
        { order := { providerOrderId := "r1", kind := "seats", seatsDelta := 5,
                     status := "created", paymentId := none },
          org := { seats := 2, apiEnabled := false } }).2.org.apiEnabled
        = (if ({ providerOrderId := "r1", kind := "seats", seatsDelta := 5,
                 status := "created", paymentId := none } : BillingVerify.OrderRow).kind
              = "api"
           then true else false)
    ∧ (BillingVerify.POST
        { authed := true, razorpayOrderId := "r1", sigValid := true,
          isAdmin := true, paymentId := "p1" }
        (BillingVerify.POST
          { authed := true, razorpayOrderId := "r1", sigValid := true,
            isAdmin := true, paymentId := "p1" }
          { order := { providerOrderId := "r1", kind := "seats", seatsDelta := 5,
                       status := "created", paymentId := none },
            org := { seats := 2, apiEnabled := false } }).2).1 = .okResp
    ∧ (BillingVerify.POST
        { authed := true, razorpayOrderId := "r1", sigValid := true,
          isAdmin := true, paymentId := "p1" }
        (BillingVerify.POST
          { authed := true, razorpayOrderId := "r1", sigValid := true,
            isAdmin := true, paymentId := "p1" }
          { order := { providerOrderId := "r1", kind := "seats", seatsDelta := 5,
                       status := "created", paymentId := none },
            org := { seats := 2, apiEnabled := false } }).2).2
        = (BillingVerify.POST
            { authed := true, razorpayOrderId := "r1", sigValid := true,
              isAdmin := true, paymentId := "p1" }
            { order := { providerOrderId := "r1", kind := "seats", seatsDelta := 5,
                         status := "created", paymentId := none },
              org := { seats := 2, apiEnabled := false } }).2 :=
  C7_idempotent_entitlement
    { authed := true, razorpayOrderId := "r1", sigValid := true,
      isAdmin := true, paymentId := "p1" }
    { order := { providerOrderId := "r1", kind := "seats", seatsDelta := 5,
                 status := "created", paymentId := none },
      org := { seats := 2, apiEnabled := false } }
    rfl rfl rfl rfl (by decide)
